import Mathlib

/-!
Verification of the core logic of the AI-summary batch app (src/app.py).

Python strings are modelled as lists of characters (`PyStr`), Python
exceptions as their message strings (`PyErr`), and Python dicts as ordered
association lists with Python's insert-or-overwrite assignment semantics
(`PyDict`, `dictInsert`).  Fallible Python code is modelled with `Except`:
an `Except.error` value is a raised exception, an `Except.ok` value is a
normal return.  The external OpenAI collaborators are modelled as oracles:
`client` for the `OpenAI(api_key=...)` constructor and `llm` for the
`client.chat.completions.create(...)` call together with the
`response.choices[0].message.content` extraction (both can raise).
-/

abbrev PyStr := List Char

abbrev PyErr := List Char

abbrev PyDict := List (PyStr × PyStr)

/-- Python substring test `needle in haystack` on character lists. -/
def pyContains (needle : PyStr) : PyStr → Bool
  | [] => needle.isEmpty
  | c :: rest => needle.isPrefixOf (c :: rest) || pyContains needle rest

/-- Characters treated as whitespace by `str.strip()` (ASCII subset). -/
def pyIsSpace (c : Char) : Bool :=
  c = ' ' || c = '\t' || c = '\n' || c = '\r' || c = '\x0b' || c = '\x0c'

/-- Python `str.strip()` on character lists. -/
def pyStrip (s : PyStr) : PyStr :=
  (((s.dropWhile pyIsSpace).reverse).dropWhile pyIsSpace).reverse

/-- The open-brace character, code point 123. -/
def formatLBrace : Char := Char.ofNat 123

/-- The close-brace character, code point 125. -/
def formatRBrace : Char := Char.ofNat 125

/-- Message of the ValueError that Python `str.format` raises on a brace not
belonging to a replacement field. -/
def singleBraceMsg : PyErr := "Single brace encountered in format string".data

/-- Python `str.format(description=d, url=u)` on character lists, restricted
to the simple replacement fields used by src/app.py: doubled braces are
literal braces, `{description}` and `{url}` substitute, any other field name
raises KeyError (modelled as an error carrying the field name), and an
unmatched brace raises ValueError.  The first argument is `none` while
scanning literal text and `some acc` while inside a replacement field, `acc`
holding the reversed field name read so far. -/
def pyFormat (d u : PyStr) : Option PyStr → PyStr → Except PyErr PyStr
  | none, [] => .ok []
  | none, [c] =>
      if c = formatLBrace then .error singleBraceMsg
      else if c = formatRBrace then .error singleBraceMsg
      else (pyFormat d u none []).map (fun r => c :: r)
  | none, c :: c2 :: rest2 =>
      if c = formatLBrace then
        if c2 = formatLBrace then
          (pyFormat d u none rest2).map (fun r => formatLBrace :: r)
        else
          pyFormat d u (some []) (c2 :: rest2)
      else if c = formatRBrace then
        if c2 = formatRBrace then
          (pyFormat d u none rest2).map (fun r => formatRBrace :: r)
        else
          .error singleBraceMsg
      else
        (pyFormat d u none (c2 :: rest2)).map (fun r => c :: r)
  | some _, [] => .error singleBraceMsg
  | some acc, c :: rest =>
      if c = formatRBrace then
        if acc.reverse = "description".data then
          (pyFormat d u none rest).map (fun r => d ++ r)
        else if acc.reverse = "url".data then
          (pyFormat d u none rest).map (fun r => u ++ r)
        else
          .error acc.reverse
      else
        pyFormat d u (some (c :: acc)) rest

/-- The built-in default prompt template, `DEFAULT_PROMPT_TEMPLATE` of
src/app.py lines 25-41. -/
def DEFAULT_PROMPT_TEMPLATE : PyStr :=
  "\nShorten and summarize the following news article into one and a half lines including all the key information concisely in the following format:\n\n[Article Title](URL) — The **Organization** did **something important** that has **significant impact**.\n\nExamples:\n[If It Looks Like a bank…](https://techcrunch.com/2024/11/21/apple-pay-paypal-cash-app-will-be-treated-more-like-banks/) — The **CFPB** just ruled that **any digital service** that handles a significant number of transactions (eg. **Apple**, **Paypal**) should be subject to **bank-like oversight**.\n\n[**AI Boon Continues**](https://www.bloomberg.com/news/articles/2024-11-20/nvidia-forecast-fails-to-meet-the-loftiest-estimates-for-ai-star) — **Nvidia** beats **Q3** earnings but falls short of highest estimates. Forecasts show continued AI-driven growth of **70%** for Q4 as new chips begin to ship.\n\n[**Monopoly Game Over**](https://www.politico.com/news/2024/11/20/doj-unveils-plan-to-breakup-googles-monopoly-00190753) — The **DOJ** seeks to force **Google** to sell its **Chrome** browser and **Android** mobile OS businesses to address illegal monopoly concerns.\n\nIMPORTANT: Your response should be a single, complete, properly formatted summary following the examples above. Include the full article title in brackets with the URL as a link, followed by a concise summary with key entities in bold.\n\nDescription: {description}\nURL: {url}\n".data

/-- One row of tag_prompts.csv as produced by `csv.DictReader`. -/
structure TagRow where
  tag : PyStr
  prompt : PyStr
  deriving DecidableEq

/-- Python dict assignment `d[k] = v`: overwrite the value in place when the
key is present, else append the new entry. -/
def dictInsert (d : PyDict) (k v : PyStr) : PyDict :=
  if d.any (fun p => p.1 == k) then
    d.map (fun p => if p.1 == k then (k, v) else p)
  else
    d ++ [(k, v)]

/-- Python dict lookup `d.get(k)`: value of the (unique) entry with key `k`,
if any. -/
def pyLookup (d : PyDict) (k : PyStr) : Option PyStr :=
  (d.find? (fun p => p.1 == k)).map Prod.snd

/-- The `for row in reader: tag_prompts[row[Tag]] = row[Prompt]` loop of
`load_tag_prompts` (src/app.py lines 58-59).  The reader yields rows lazily;
a row that fails to parse raises out of the loop (caught by the caller), so
insertion stops at the first error and the dict built so far is kept. -/
def insertRows : PyDict → List (Except PyErr TagRow) → PyDict
  | d, [] => d
  | d, .error _ :: _ => d
  | d, .ok r :: rest => insertRows (dictInsert d r.tag r.prompt) rest

/-- `load_tag_prompts` (src/app.py lines 47-62).  The argument models the
file: `.error` when opening tag_prompts.csv fails, otherwise the lazy row
stream, each element a parsed row or a parse failure.  The try/except wraps
the whole loop: any raised exception is caught (after `st.error` reporting,
a side effect not modelled) and the accumulated dict is returned. -/
def load_tag_prompts (file : Except PyErr (List (Except PyErr TagRow))) : PyDict :=
  match file with
  | .error _ => []
  | .ok rows => insertRows [] rows

/-- The rows a lazy reader yields before its first failure. -/
def okPrefix : List (Except PyErr TagRow) → List TagRow
  | [] => []
  | .error _ :: _ => []
  | .ok r :: rest => r :: okPrefix rest

/-- `get_prompt_for_tag` (src/app.py lines 92-105):
`if tag and tag_prompts and tag in tag_prompts: return tag_prompts[tag]`,
else the default template.  `tag` is `None` or a string; Python truthiness
of a string is non-emptiness and of a dict is non-emptiness. -/
def get_prompt_for_tag (tag : Option PyStr) (tag_prompts : PyDict) : PyStr :=
  match tag with
  | none => DEFAULT_PROMPT_TEMPLATE
  | some t =>
      if t.isEmpty then DEFAULT_PROMPT_TEMPLATE
      else if tag_prompts.isEmpty then DEFAULT_PROMPT_TEMPLATE
      else
        match tag_prompts.find? (fun p => p.1 == t) with
        | some p => p.2
        | none => DEFAULT_PROMPT_TEMPLATE

/-- The prompt construction of `generate_summary` (src/app.py lines 122-128):
templates containing both `{description}` and `{url}` go through
`str.format`, any other template gets the description and URL appended. -/
def build_prompt (prompt_template description url : PyStr) : Except PyErr PyStr :=
  if pyContains "{description}".data prompt_template &&
      pyContains "{url}".data prompt_template then
    pyFormat description url none prompt_template
  else
    .ok (prompt_template ++ "\n\nDescription: ".data ++ description ++
      "\nURL: ".data ++ url)

/-- `generate_summary` (src/app.py lines 107-142).  `client` models the
`OpenAI(api_key=api_key)` constructor (line 120, outside the try block) and
`llm` the completion request plus choice extraction (lines 131-140, inside
the try block).  Only the try block converts a raised exception `e` into the
return value `"Error: " + str(e)`; exceptions of the client constructor and
of the prompt construction propagate. -/
def generate_summary (client : Except PyErr Unit) (llm : PyStr → Except PyErr PyStr)
    (description url prompt_template : PyStr) : Except PyErr PyStr :=
  match client with
  | .error e => .error e
  | .ok _ =>
      match build_prompt prompt_template description url with
      | .error e => .error e
      | .ok prompt =>
          match llm prompt with
          | .ok content => .ok (pyStrip content)
          | .error e => .ok ("Error: ".data ++ e)

/-- `validate_summary` (src/app.py lines 144-166): the three structural
checks, in source order. -/
def validate_summary (summary : PyStr) : Bool :=
  if !(pyContains "[".data summary && pyContains "](".data summary &&
      pyContains ")".data summary) then
    false
  else if !(pyContains " — ".data summary) then
    false
  else if !(pyContains "**".data summary) then
    false
  else
    true

/-- One input row with its already-extracted fields: `row[description_col]`,
`row[url_col]` and `row.get(tag_col)` (`none` models both a missing tag
column and a missing value). -/
structure Row where
  description : PyStr
  url : PyStr
  tag : Option PyStr
  deriving DecidableEq

/-- `process_single_row` (src/app.py lines 168-193): resolve the prompt,
generate the summary, and replace it by the fixed sentinel when structural
validation fails. -/
def process_single_row (client : Except PyErr Unit) (llm : PyStr → Except PyErr PyStr)
    (tag_prompts : PyDict) (row : Row) : Except PyErr PyStr :=
  match generate_summary client llm row.description row.url
      (get_prompt_for_tag row.tag tag_prompts) with
  | .error e => .error e
  | .ok summary =>
      .ok (if validate_summary summary then summary
        else "Invalid summary format. Please try again.".data)

/-- `list(executor.map(process_with_progress, row_tuples))` (src/app.py lines
235-238): `executor.map` yields results in submission (input) order whatever
the completion order; consuming the iterator re-raises the first exception in
input order. -/
def collect_results (f : Row → Except PyErr PyStr) : List Row → Except PyErr (List PyStr)
  | [] => .ok []
  | r :: rest =>
      match f r with
      | .error e => .error e
      | .ok s =>
          match collect_results f rest with
          | .error e => .error e
          | .ok tail => .ok (s :: tail)

/-- The progress update of `process_with_progress` (src/app.py lines 222-225)
replayed over a sequence of completion events: each completion does
`completed += 1` then `status_callback(completed - 1, total_rows)`.  The
first argument to the fold is the current value of the shared `completed`
counter; completion events are taken as serialized (the two statements of
one completion are not interleaved with another completion). -/
def run_completions (total : Nat) : List Nat → Nat → List (Nat × Nat)
  | [], _ => []
  | _ :: rest, completed =>
      (completed + 1 - 1, total) :: run_completions total rest (completed + 1)

/-- `process_data` (src/app.py lines 195-240).  Rows are pre-projected into
`Row` values (the `df.iterrows()` enumeration), `order` is the order in which
the concurrent workers complete their rows — it exists only in the schedule,
so it can influence only the stream of progress-callback invocations,
returned as the second component as (first argument, second argument) pairs;
`has_callback` is whether `status_callback` was supplied.  The first
component is `list(executor.map(...))`, which is in input order. -/
def process_data (client : Except PyErr Unit) (llm : PyStr → Except PyErr PyStr)
    (tag_prompts : PyDict) (rows : List Row) (has_callback : Bool)
    (order : List (Fin rows.length)) :
    Except PyErr (List PyStr) × List (Nat × Nat) :=
  (collect_results (process_single_row client llm tag_prompts) rows,
   if has_callback then run_completions rows.length (order.map Fin.val) 0 else [])

/-- Worker-pool bound of `process_data` (src/app.py line 230): the source
constructs `concurrent.futures.ThreadPoolExecutor()` with the default
`max_workers`, which the Python standard library resolves to
`min(32, cpu_count + 4)`.  Parameterized by the machine cpu count and by the
rows handed to `process_data`, of which it uses neither beyond the count. -/
def process_data_max_workers (cpu_count : Nat) (_rows : List Row) : Nat :=
  min 32 (cpu_count + 4)

/-- A stub input row used for concrete evaluations. -/
def stubRow : Row := ⟨"d".data, "u".data, some "X".data⟩

/-- A stub tag-prompt table mapping the stub row's tag to a tiny template. -/
def stubTable : PyDict := [("X".data, "T".data)]

/-- A completion oracle that always raises with message boom. -/
def llmFail : PyStr → Except PyErr PyStr := fun _ => .error "boom".data

/-- A completion oracle that always returns one fixed valid summary. -/
def llmOk : PyStr → Except PyErr PyStr := fun _ => .ok "[T](u) — **B**".data

/-! ## Helper lemmas -/

/-- `pyContains` decides substring containment. -/
theorem pyContains_iff (needle hay : PyStr) :
    pyContains needle hay = true ↔ needle <:+: hay := by
  induction hay with
  | nil => simp [pyContains, List.isEmpty_iff, List.infix_nil]
  | cons c rest ih =>
      simp [pyContains, List.isPrefixOf_iff_prefix, ih, List.infix_cons_iff]

/-- Replaying `n` completion events from counter value `c` reports the values
`c, c+1, ..., c+n-1`, each paired with the total. -/
theorem run_completions_eq (total : Nat) (l : List Nat) (c : Nat) :
    run_completions total l c = (List.range l.length).map (fun k => (c + k, total)) := by
  induction l generalizing c with
  | nil => rfl
  | cons i rest ih =>
      have harg : (fun k => (c + 1 + k, total)) = (fun k => (c + (k + 1), total)) := by
        funext k
        rw [Nat.add_assoc, Nat.add_comm 1 k]
      calc run_completions total (i :: rest) c
          = (c, total) :: run_completions total rest (c + 1) := by
            simp [run_completions]
        _ = (c, total) :: (List.range rest.length).map (fun k => (c + 1 + k, total)) := by
            rw [ih]
        _ = (List.range (rest.length + 1)).map (fun k => (c + k, total)) := by
            rw [List.range_succ_eq_map, List.map_cons, List.map_map]
            simp [harg, Function.comp]
        _ = (List.range (i :: rest).length).map (fun k => (c + k, total)) := by
            simp

/-- A successful `collect_results` run has one output per input row, in input
order, each the successful result of `f` on the corresponding row. -/
theorem collect_results_ok (f : Row → Except PyErr PyStr) :
    ∀ rows out, collect_results f rows = .ok out →
      out.length = rows.length ∧
      ∀ (i : Nat) (r : Row), rows[i]? = some r → out[i]? = (f r).toOption := by
  intro rows
  induction rows with
  | nil =>
      intro out h
      simp [collect_results] at h
      subst h
      refine ⟨rfl, ?_⟩
      intro i r hr
      simp at hr
  | cons r rest ih =>
      intro out h
      simp only [collect_results] at h
      cases hf : f r with
      | error e => rw [hf] at h; exact absurd h (by simp)
      | ok s =>
          rw [hf] at h
          cases hc : collect_results f rest with
          | error e => rw [hc] at h; exact absurd h (by simp)
          | ok tail =>
              rw [hc] at h
              have hout : out = s :: tail := by
                cases h; rfl
              subst hout
              obtain ⟨hlen, hget⟩ := ih tail hc
              refine ⟨by simp [hlen], ?_⟩
              intro i r' hr
              cases i with
              | zero =>
                  simp at hr
                  subst hr
                  simp [hf, Except.toOption]
              | succ j =>
                  simp only [List.getElem?_cons_succ] at hr ⊢
                  exact hget j r' hr

/-- Overwriting the entry for `k` makes `k` find the new pair, provided some
entry for `k` exists. -/
theorem find?_map_update_self (d : PyDict) (k v : PyStr)
    (h : d.any (fun p => p.1 == k) = true) :
    (d.map (fun p => if p.1 == k then (k, v) else p)).find? (fun p => p.1 == k) =
      some (k, v) := by
  induction d with
  | nil => simp at h
  | cons a d ih =>
      rw [List.map_cons]
      by_cases hak : (a.1 == k) = true
      · rw [if_pos hak, List.find?_cons]
        simp
      · rw [if_neg hak, List.find?_cons]
        have hakf : (a.1 == k) = false := by simpa using hak
        rw [hakf]
        have h' : d.any (fun p => p.1 == k) = true := by
          simpa [List.any_cons, hakf] using h
        simpa using ih h'

/-- Overwriting the entry for `k` does not change what any other key finds. -/
theorem find?_map_update_ne (d : PyDict) (k v k' : PyStr) (hne : k' ≠ k) :
    (d.map (fun p => if p.1 == k then (k, v) else p)).find? (fun p => p.1 == k') =
      d.find? (fun p => p.1 == k') := by
  induction d with
  | nil => rfl
  | cons a d ih =>
      rw [List.map_cons, List.find?_cons, List.find?_cons]
      by_cases hak : (a.1 == k) = true
      · have ha : a.1 = k := by simpa using hak
        have hak' : (a.1 == k') = false := by
          rw [beq_eq_false_iff_ne, ha]
          exact fun hk => hne hk.symm
        have hkk' : ((k : PyStr) == k') = false := by
          rw [← ha]; exact hak'
        rw [if_pos hak, hak']
        have hkv : (((k, v) : PyStr × PyStr).1 == k') = false := hkk'
        rw [hkv]
        simpa using ih
      · rw [if_neg hak]
        cases hak2 : (a.1 == k')
        · exact ih
        · rfl

/-- Python dict assignment then lookup: the assigned key sees the new value,
every other key is untouched. -/
theorem pyLookup_dictInsert (d : PyDict) (k v k' : PyStr) :
    pyLookup (dictInsert d k v) k' = if k' = k then some v else pyLookup d k' := by
  unfold dictInsert pyLookup
  by_cases hany : d.any (fun p => p.1 == k) = true
  · rw [if_pos hany]
    by_cases hk : k' = k
    · subst hk
      rw [find?_map_update_self d k' v hany, if_pos rfl]
      rfl
    · rw [find?_map_update_ne d k v k' hk, if_neg hk]
  · rw [if_neg hany, List.find?_append]
    by_cases hk : k' = k
    · subst hk
      have hnone : d.find? (fun p => p.1 == k') = none := by
        rw [List.find?_eq_none]
        intro p hp hpk
        exact absurd (List.any_eq_true.mpr ⟨p, hp, hpk⟩) hany
      rw [hnone, if_pos rfl, List.find?_cons]
      simp
    · have hkk' : ((k : PyStr) == k') = false := by
        rw [beq_eq_false_iff_ne]
        exact fun h => hk h.symm
      rw [List.find?_cons]
      have hkv : (((k, v) : PyStr × PyStr).1 == k') = false := hkk'
      rw [hkv, List.find?_nil, if_neg hk]
      cases d.find? (fun p => p.1 == k') <;> rfl

/-- Folding the reader rows into a dict from any starting dict: a key sees
the prompt of the last row (before the first failure) carrying it, and falls
back to the starting dict otherwise. -/
theorem pyLookup_insertRows (rows : List (Except PyErr TagRow)) (d : PyDict) (t : PyStr) :
    pyLookup (insertRows d rows) t =
      (((okPrefix rows).reverse.find? (fun r => r.tag == t)).map TagRow.prompt).or
        (pyLookup d t) := by
  induction rows generalizing d with
  | nil => simp [insertRows, okPrefix, Option.or]
  | cons x rest ih =>
      cases x with
      | error e => simp [insertRows, okPrefix, Option.or]
      | ok r =>
          rw [show insertRows d (.ok r :: rest) =
              insertRows (dictInsert d r.tag r.prompt) rest from rfl, ih,
            show okPrefix (.ok r :: rest) = r :: okPrefix rest from rfl,
            List.reverse_cons, List.find?_append]
          cases hfind : (okPrefix rest).reverse.find? (fun r => r.tag == t) with
          | some x => simp [Option.or]
          | none =>
              simp only [Option.map_none', Option.or]
              rw [pyLookup_dictInsert, List.find?_cons]
              cases hrt : (r.tag == t) with
              | true =>
                  have ht : t = r.tag := (beq_iff_eq.mp hrt).symm
                  rw [if_pos ht]
                  rfl
              | false =>
                  have hne : t ≠ r.tag := by
                    intro h
                    rw [h] at hrt
                    simp at hrt
                  rw [if_neg hne, List.find?_nil]
                  rfl

/-! ## Claim theorems -/

/-- Claim C4: `validate_summary s` is true if and only if `s` contains the
markdown-link substrings (an open bracket, a bracket-paren pair, a close
paren), the em dash surrounded by single spaces, and the bold marker; of the
eight present/absent combinations of the three structural checks, only the
all-present combination yields true. -/
theorem validate_summary_iff (s : PyStr) :
    validate_summary s = true ↔
      (("[".data <:+: s) ∧ ("](".data <:+: s) ∧ (")".data <:+: s)) ∧
      (" — ".data <:+: s) ∧ ("**".data <:+: s) := by
  unfold validate_summary
  simp only [← pyContains_iff]
  cases h1 : pyContains "[".data s <;>
    cases h2 : pyContains "](".data s <;>
      cases h3 : pyContains ")".data s <;>
        cases h4 : pyContains " — ".data s <;>
          cases h5 : pyContains "**".data s <;>
            simp

/-- Claim C7: the worker pool used by `process_data` is bounded independently
of the record count: its size is the same whatever rows are processed, and it
never exceeds 32 (the standard-library default resolves the unspecified
`max_workers` to the minimum of 32 and cpu count plus 4). -/
theorem process_data_pool_bound (cpu_count : Nat) (rows1 rows2 : List Row) :
    process_data_max_workers cpu_count rows1 = process_data_max_workers cpu_count rows2 ∧
    process_data_max_workers cpu_count rows1 ≤ 32 :=
  ⟨rfl, Nat.min_le_left 32 (cpu_count + 4)⟩

/-- Claim C8: on a zero-row input `process_data` launches no units of work,
returns the empty output sequence, and never invokes the progress callback
(the completion schedule over zero rows is necessarily empty). -/
theorem process_data_empty (client : Except PyErr Unit) (llm : PyStr → Except PyErr PyStr)
    (tag_prompts : PyDict) (has_callback : Bool)
    (order : List (Fin (([] : List Row)).length)) :
    process_data client llm tag_prompts [] has_callback order = (.ok [], []) := by
  have horder : order = [] := by
    cases order with
    | nil => rfl
    | cons a rest => exact absurd a.isLt (by simp)
  subst horder
  cases has_callback <;> rfl

/-- Claim C2: when the completion request fails (the `llm` oracle raises with
message `msg`) after the client was constructed and the prompt was built,
`generate_summary` does not raise: it returns the string made of the prefix
Error-colon-space and the message; consequently `process_single_row` on that
row also returns normally, so the failing item cannot abort the batch. -/
theorem generate_summary_error_policy (llm : PyStr → Except PyErr PyStr)
    (tag_prompts : PyDict) (row : Row) (msg prompt : PyStr)
    (hp : build_prompt (get_prompt_for_tag row.tag tag_prompts) row.description row.url =
      .ok prompt)
    (hl : llm prompt = .error msg) :
    generate_summary (.ok ()) llm row.description row.url
        (get_prompt_for_tag row.tag tag_prompts) = .ok ("Error: ".data ++ msg) ∧
    process_single_row (.ok ()) llm tag_prompts row =
      .ok (if validate_summary ("Error: ".data ++ msg) then "Error: ".data ++ msg
        else "Invalid summary format. Please try again.".data) := by
  have h1 : generate_summary (.ok ()) llm row.description row.url
      (get_prompt_for_tag row.tag tag_prompts) = .ok ("Error: ".data ++ msg) := by
    unfold generate_summary
    simp only [hp, hl]
  refine ⟨h1, ?_⟩
  unfold process_single_row
  rw [h1]

/-- Witness for C2 at a concrete failing request. -/
theorem generate_summary_error_policy_witness :
    generate_summary (.ok ()) llmFail stubRow.description stubRow.url
        (get_prompt_for_tag stubRow.tag stubTable) = .ok ("Error: ".data ++ "boom".data) :=
  (generate_summary_error_policy llmFail stubTable stubRow "boom".data
    "T\n\nDescription: d\nURL: u".data (by rfl) (by rfl)).1

/-- Claim C9: the OpenAI client construction and the prompt construction of
`generate_summary` sit outside its try block, so an exception raised by
either of them propagates out of `generate_summary` instead of being turned
into an Error-prefixed return string; a template containing both placeholders
plus a further replacement field (or an unmatched brace) makes the format
step raise in exactly this way. -/
theorem generate_summary_raises_outside_try (client : Except PyErr Unit)
    (llm : PyStr → Except PyErr PyStr) (d u tpl : PyStr) :
    (∀ e, client = .error e → generate_summary client llm d u tpl = .error e) ∧
    (∀ e, client = .ok () → build_prompt tpl d u = .error e →
      generate_summary client llm d u tpl = .error e) := by
  constructor
  · intro e he
    subst he
    rfl
  · intro e hc hb
    subst hc
    unfold generate_summary
    rw [hb]

/-- Witness for C9: a concrete template with both placeholders plus a third
field makes the format step, and with it `generate_summary`, raise. -/
theorem generate_summary_raises_outside_try_witness :
    build_prompt "{description} {url} {x}".data "d".data "u".data = .error "x".data ∧
    generate_summary (.ok ()) llmOk "d".data "u".data "{description} {url} {x}".data =
      .error "x".data := by
  refine ⟨by rfl, ?_⟩
  exact (generate_summary_raises_outside_try (.ok ()) llmOk "d".data "u".data
    "{description} {url} {x}".data).2 "x".data rfl (by rfl)

/-- Claim C1: when `process_data` returns a result list, it has exactly one
entry per input row; the entry at index `i` is the processed summary of input
row `i`; and the result list is the same for every completion order of the
concurrent workers. -/
theorem process_data_ordered (client : Except PyErr Unit)
    (llm : PyStr → Except PyErr PyStr) (tag_prompts : PyDict) (rows : List Row)
    (has_callback : Bool) (order : List (Fin rows.length))
    (out : List PyStr) (ev : List (Nat × Nat))
    (h : process_data client llm tag_prompts rows has_callback order = (.ok out, ev)) :
    out.length = rows.length ∧
    (∀ (i : Nat) (r : Row), rows[i]? = some r →
      out[i]? = (process_single_row client llm tag_prompts r).toOption) ∧
    (∀ order' : List (Fin rows.length),
      (process_data client llm tag_prompts rows has_callback order').1 = .ok out) := by
  have hres : collect_results (process_single_row client llm tag_prompts) rows = .ok out := by
    have h1 := congrArg Prod.fst h
    simpa [process_data] using h1
  obtain ⟨hlen, hget⟩ := collect_results_ok _ rows out hres
  exact ⟨hlen, hget, fun order' => by simp [process_data, hres]⟩

/-- Witness for C1 on a concrete one-row batch. -/
theorem process_data_ordered_witness :
    ("[T](u) — **B**".data :: []).length = [stubRow].length ∧
    ("[T](u) — **B**".data :: [])[0]? =
      (process_single_row (.ok ()) llmOk stubTable stubRow).toOption := by
  have h := process_data_ordered (.ok ()) llmOk stubTable [stubRow] true
    [⟨0, Nat.zero_lt_one⟩] ("[T](u) — **B**".data :: []) [(0, 1)] (by rfl)
  exact ⟨h.1, h.2.1 0 stubRow (by rfl)⟩

/-- Counterexample to C3: a one-row batch that completes fully fires exactly
one callback, and that callback carries completed count 0 (zero-based), not
the just-finished count 1; the value sequence never reaches N = 1. -/
theorem process_data_progress_cex :
    (process_data (.ok ()) llmFail stubTable [stubRow] true [⟨0, Nat.zero_lt_one⟩]).1 =
      .ok ["Invalid summary format. Please try again.".data] ∧
    (process_data (.ok ()) llmFail stubTable [stubRow] true [⟨0, Nat.zero_lt_one⟩]).2 =
      [(0, 1)] ∧
    ¬ (1 ∈ ((process_data (.ok ()) llmFail stubTable [stubRow] true
      [⟨0, Nat.zero_lt_one⟩]).2.map Prod.fst)) :=
  ⟨by rfl, by rfl, by decide⟩

/-- Claim C3 (amended): with a callback supplied and a batch of N rows whose
units all complete, each completion fires exactly one callback carrying
(completed - 1, total): the reported values are 0, 1, ..., N-1 each paired
with N — non-decreasing, one invocation per completed unit, ending at N-1
and never reaching N. -/
theorem process_data_progress_events (client : Except PyErr Unit)
    (llm : PyStr → Except PyErr PyStr) (tag_prompts : PyDict) (rows : List Row)
    (order : List (Fin rows.length)) (h : order.length = rows.length) :
    (process_data client llm tag_prompts rows true order).2 =
      (List.range rows.length).map (fun k => (k, rows.length)) := by
  simp [process_data, run_completions_eq, h]

/-- Witness for C3 (amended) on a concrete completed one-row batch. -/
theorem process_data_progress_events_witness :
    (process_data (.ok ()) llmOk stubTable [stubRow] true [⟨0, Nat.zero_lt_one⟩]).2 =
      (List.range 1).map (fun k => (k, 1)) :=
  process_data_progress_events (.ok ()) llmOk stubTable [stubRow]
    [⟨0, Nat.zero_lt_one⟩] (by rfl)

/-- Claim C5: `get_prompt_for_tag` returns the table entry exactly when the
tag is present, non-empty and a key of the table; in every other case (tag
absent or the empty string, tag not a key, table empty) it returns the
built-in default template; it is total by construction. -/
theorem get_prompt_for_tag_spec (tag : Option PyStr) (table : PyDict) :
    (∀ t v, tag = some t → t ≠ [] → pyLookup table t = some v →
      get_prompt_for_tag tag table = v) ∧
    ((∀ t, tag = some t → t = [] ∨ pyLookup table t = none) →
      get_prompt_for_tag tag table = DEFAULT_PROMPT_TEMPLATE) := by
  constructor
  · intro t v htag ht hlook
    subst htag
    simp only [get_prompt_for_tag]
    rw [if_neg (by simpa [List.isEmpty_iff] using ht)]
    have htab : table ≠ [] := by
      intro hnil
      rw [hnil] at hlook
      simp [pyLookup] at hlook
    rw [if_neg (by simpa [List.isEmpty_iff] using htab)]
    unfold pyLookup at hlook
    cases hf : table.find? (fun p => p.1 == t) with
    | none => rw [hf] at hlook; simp at hlook
    | some p =>
        rw [hf] at hlook
        simpa using hlook
  · intro hd
    cases tag with
    | none => rfl
    | some t =>
        rcases hd t rfl with ht | hlook
        · subst ht
          rfl
        · simp only [get_prompt_for_tag]
          by_cases hemp : t.isEmpty = true
          · rw [if_pos hemp]
          · rw [if_neg hemp]
            by_cases htab : table.isEmpty = true
            · rw [if_pos htab]
            · rw [if_neg htab]
              unfold pyLookup at hlook
              cases hf : table.find? (fun p => p.1 == t) with
              | none => rfl
              | some p => rw [hf] at hlook; simp at hlook

/-- Witness for C5 at the spec's example table. -/
theorem get_prompt_for_tag_spec_witness :
    get_prompt_for_tag (some "News".data) [("News".data, "T1".data)] = "T1".data ∧
    get_prompt_for_tag (some "Other".data) [("News".data, "T1".data)] =
      DEFAULT_PROMPT_TEMPLATE ∧
    get_prompt_for_tag none [("News".data, "T1".data)] = DEFAULT_PROMPT_TEMPLATE := by
  refine ⟨?_, ?_, ?_⟩
  · exact (get_prompt_for_tag_spec (some "News".data) [("News".data, "T1".data)]).1
      "News".data "T1".data rfl (by decide) (by rfl)
  · exact (get_prompt_for_tag_spec (some "Other".data) [("News".data, "T1".data)]).2
      (by intro t ht; injection ht with ht; subst ht; right; rfl)
  · exact (get_prompt_for_tag_spec none [("News".data, "T1".data)]).2
      (by intro t ht; cases ht)

/-- Counterexample to C6: an exception message that itself contains a
markdown link, the spaced em dash and bold markers yields a summary that
begins with Error-colon-space yet passes validation, so `process_single_row`
returns the raw error text rather than the sentinel. -/
theorem error_prefixed_summary_cex :
    validate_summary "Error: [a](b) — **c**".data = true ∧
    ("Error: ".data <+: "Error: [a](b) — **c**".data) ∧
    process_single_row (.ok ()) (fun _ => .error "[a](b) — **c**".data) stubTable stubRow =
      .ok "Error: [a](b) — **c**".data ∧
    "Error: [a](b) — **c**".data ≠ "Invalid summary format. Please try again.".data :=
  ⟨by decide, by decide, by rfl, by decide⟩

/-- Claim C6 (amended): a summary beginning with Error-colon-space fails
validation, and is replaced by `process_single_row` with the uniform
sentinel, whenever it lacks the spaced em-dash separator — as a bare client
error message does; an Error-prefixed string containing all three structural
markers instead passes validation and is returned verbatim. -/
theorem error_summary_replaced (client : Except PyErr Unit)
    (llm : PyStr → Except PyErr PyStr) (tag_prompts : PyDict) (row : Row) (s : PyStr)
    (hs : generate_summary client llm row.description row.url
      (get_prompt_for_tag row.tag tag_prompts) = .ok s)
    (hpre : "Error: ".data <+: s)
    (hsep : ¬ (" — ".data <:+: s)) :
    process_single_row client llm tag_prompts row =
      .ok "Invalid summary format. Please try again.".data := by
  have hc : pyContains " — ".data s = false := by
    rw [← Bool.not_eq_true, pyContains_iff]
    exact hsep
  have hv : validate_summary s = false := by
    unfold validate_summary
    rw [hc]
    cases pyContains "[".data s && pyContains "](".data s && pyContains ")".data s <;> simp
  unfold process_single_row
  simp only [hs]
  rw [hv]
  simp

/-- Witness for C6 (amended): a bare failing request yields an
Error-prefixed summary without the separator, replaced by the sentinel. -/
theorem error_summary_replaced_witness :
    process_single_row (.ok ()) llmFail stubTable stubRow =
      .ok "Invalid summary format. Please try again.".data :=
  error_summary_replaced (.ok ()) llmFail stubTable stubRow "Error: boom".data
    (by rfl) (by decide) (by decide)

/-- Counterexample to C10: a parse failure on the second row returns the
table holding the first row, which is not empty. -/
theorem load_tag_prompts_cex :
    load_tag_prompts (.ok [.ok ⟨"A".data, "P1".data⟩, .error "bad".data]) =
      [("A".data, "P1".data)] ∧
    load_tag_prompts (.ok [.ok ⟨"A".data, "P1".data⟩, .error "bad".data]) ≠ [] :=
  ⟨by rfl, by decide⟩

/-- Claim C10 (amended): `load_tag_prompts` never raises; a failure to open
the file yields the empty table; otherwise each tag maps to the Prompt of
the last row carrying it among the rows read before the first parse failure
(all rows when every row parses), later rows overwriting earlier ones. -/
theorem load_tag_prompts_spec :
    (∀ rows t, pyLookup (load_tag_prompts (.ok rows)) t =
      ((okPrefix rows).reverse.find? (fun r => r.tag == t)).map TagRow.prompt) ∧
    (∀ e, load_tag_prompts (.error e) = []) := by
  constructor
  · intro rows t
    have h := pyLookup_insertRows rows [] t
    rw [show load_tag_prompts (.ok rows) = insertRows [] rows from rfl, h]
    cases (okPrefix rows).reverse.find? (fun r => r.tag == t) <;> rfl
  · intro e
    rfl
